import Mathlib

/-!
Verification of the accessibility linter's core layers against its
natural-language specification.

The development shallowly embeds the parts of the plugin that the claims
touch:

* the two element-tree dialects (JSX opening elements and Vue template
  elements) as plain inductive data,
* the event-handler classification layer (`event-utils.ts`),
* the dialect-agnostic attribute resolver (`jsx-ast-utils` /
  `vue-ast-utils`; these modules are absent from the sources, so they are
  modelled from the spec's section 4.1),
* the component-to-native-tag resolver (`component-mapping`; also absent
  from the sources, modelled from the spec's section 4.3),
* the rule modules `form-label`, `anchor-is-valid`,
  `no-noninteractive-element-to-interactive-role`, `scope` and
  `prefer-tag-over-role`.

Each rule's per-dialect visitor is embedded as a pure function from an
element node to the optional diagnostic it reports.
-/

/-- A statically known JavaScript literal: string, number or boolean.
This is the payload of an AST `Literal` node. -/
inductive LitVal
  | str (s : String)
  | num (n : Int)
  | bool (b : Bool)
deriving DecidableEq

/-- JavaScript truthiness of a literal value: the empty string, `0` and
`false` are falsy, everything else is truthy. -/
def litTruthy : LitVal → Bool
  | .str s => !(s == "")
  | .num n => !(n == 0)
  | .bool b => b

/-- Lower-casing as JavaScript's `toLowerCase` behaves on the ASCII
vocabulary these rules compare against (tag names, role and scope and
href values); defined structurally over the character list so that
concrete instances evaluate. -/
def jsToLower (s : String) : String := ⟨s.data.map Char.toLower⟩

/-- JavaScript's `startsWith`, structurally over the character lists. -/
def jsStartsWith (s p : String) : Bool := p.data.isPrefixOf s.data

/-- The value position of a JSX attribute:
`null` is a bare attribute with no value (`<th scope>`),
`lit` a direct `Literal` value (`scope="col"`),
`exprLit` a `JSXExpressionContainer` whose expression is a `Literal`
(`scope={"col"}`), and
`exprDyn` a `JSXExpressionContainer` whose expression is not a literal —
a value the static layer cannot resolve. -/
inductive JSXAttrValue
  | null
  | lit (v : LitVal)
  | exprLit (v : LitVal)
  | exprDyn
deriving DecidableEq

/-- An entry of a JSX opening element's attribute list: a named
`JSXAttribute`, or a `JSXSpreadAttribute` (`{...props}`), which carries
no name. -/
inductive JSXAttr
  | attr (name : String) (value : JSXAttrValue)
  | spread
deriving DecidableEq

/-- A JSX opening element. `tag` is `some t` when the element name is a
plain `JSXIdentifier` `t`, and `none` for member expressions such as
`<Form.Input>`, which every rule skips. -/
structure JSXNode where
  tag : Option String
  attributes : List JSXAttr
deriving DecidableEq

/-- An entry of a Vue start tag's attribute list. A `plain` attribute
(`attr.directive` false) has a string key name and an optional `VLiteral`
string value; a `directive` (`v-on:click`, `@click`, `v-bind="attrs"`)
has a directive name (`on`, `bind`, ...) and an optional argument
(`click` in `v-on:click`; `v-bind="attrs"` has none). -/
inductive VAttr
  | plain (name : String) (value : Option String)
  | directive (name : String) (argument : Option String)
deriving DecidableEq

/-- A Vue template element: its raw tag name and the attribute entries of
its start tag. -/
structure VNode where
  name : String
  attributes : List VAttr
deriving DecidableEq

/-- Modelled from the spec: the `jsx-ast-utils` module is not among the
sources. Per section 4.1, `hasAttribute` is true exactly when a
non-spread attribute with the given name is present — a spread attribute
never counts as attribute presence. -/
def hasJSXAttribute (node : JSXNode) (name : String) : Bool :=
  node.attributes.any fun a =>
    match a with
    | .attr n _ => n == name
    | .spread => false

/-- Modelled from the spec: the `jsx-ast-utils` module is not among the
sources. `getAttribute` returns the value of the first non-spread
attribute with the given name, and `absent` otherwise; a spread never
supplies the attribute. -/
def getJSXAttribute (node : JSXNode) (name : String) : Option JSXAttrValue :=
  node.attributes.findSome? fun a =>
    match a with
    | .attr n v => if n == name then some v else none
    | .spread => none

/-- Modelled from the spec: the `vue-ast-utils` module is not among the
sources. Presence of a plain (non-directive) attribute with the given
key name; `v-bind` spreads and other directives never count. -/
def hasVueAttribute (node : VNode) (name : String) : Bool :=
  node.attributes.any fun a =>
    match a with
    | .plain n _ => n == name
    | .directive _ _ => false

/-- Modelled from the spec: the `vue-ast-utils` module is not among the
sources. Returns the first plain attribute with the given key name — as
the attribute's optional `VLiteral` string value — and `absent`
otherwise. Directives (including `v-bind`) are never returned. -/
def getVueAttribute (node : VNode) (name : String) : Option (Option String) :=
  node.attributes.findSome? fun a =>
    match a with
    | .plain n v => if n == name then some v else none
    | .directive _ _ => none

/-- The static string resolution that the rules `scope`,
`no-noninteractive-element-to-interactive-role`, `no-redundant-roles` and
`prefer-tag-over-role` each inline: a value resolves to a string when it
is a `Literal` string or a `JSXExpressionContainer` whose expression is a
`Literal` string; bare, non-string and dynamic values do not resolve. -/
def jsxStaticLiteralString : JSXAttrValue → Option String
  | .lit (.str s) => some s
  | .exprLit (.str s) => some s
  | _ => none

namespace EventUtils

/-- JSX click event handler names (`event-utils.ts`). -/
def JSX_CLICK_HANDLERS : List String := ["onClick", "onClickCapture"]

/-- JSX keyboard event handler names (`event-utils.ts`). -/
def JSX_KEYBOARD_HANDLERS : List String :=
  ["onKeyDown", "onKeyDownCapture", "onKeyUp", "onKeyUpCapture",
   "onKeyPress", "onKeyPressCapture"]

/-- JSX mouse event handler names, excluding click (`event-utils.ts`). -/
def JSX_MOUSE_HANDLERS : List String :=
  ["onMouseDown", "onMouseDownCapture", "onMouseUp", "onMouseUpCapture",
   "onMouseOver", "onMouseOverCapture", "onMouseOut", "onMouseOutCapture",
   "onMouseEnter", "onMouseLeave"]

/-- JSX focus event handler names (`event-utils.ts`). -/
def JSX_FOCUS_HANDLERS : List String :=
  ["onFocus", "onFocusCapture", "onBlur", "onBlurCapture"]

/-- The unified JSX handler set `JSX_ALL_HANDLERS_SET`: the union of the
four category sets, built by concatenation as in the source. -/
def JSX_ALL_HANDLERS : List String :=
  JSX_CLICK_HANDLERS ++ JSX_KEYBOARD_HANDLERS ++ JSX_MOUSE_HANDLERS ++ JSX_FOCUS_HANDLERS

/-- Vue click event handler attribute names (`event-utils.ts`). -/
def VUE_CLICK_HANDLERS : List String := ["click", "@click", "v-on:click"]

/-- Vue keyboard event handler attribute names (`event-utils.ts`). -/
def VUE_KEYBOARD_HANDLERS : List String :=
  ["keydown", "keyup", "keypress", "@keydown", "@keyup", "@keypress",
   "v-on:keydown", "v-on:keyup", "v-on:keypress"]

/-- Vue mouse event handler attribute names, excluding click
(`event-utils.ts`). -/
def VUE_MOUSE_HANDLERS : List String :=
  ["mousedown", "mouseup", "mouseover", "mouseout", "mouseenter", "mouseleave",
   "@mousedown", "@mouseup", "@mouseover", "@mouseout", "@mouseenter", "@mouseleave",
   "v-on:mousedown", "v-on:mouseup", "v-on:mouseover", "v-on:mouseout",
   "v-on:mouseenter", "v-on:mouseleave"]

/-- Vue focus event handler attribute names (`event-utils.ts`). -/
def VUE_FOCUS_HANDLERS : List String :=
  ["focus", "blur", "@focus", "@blur", "v-on:focus", "v-on:blur"]

/-- Stripped Vue click event names for `v-on` directive arguments. -/
def VUE_CLICK_EVENT_NAMES : List String := ["click"]

/-- Stripped Vue keyboard event names for `v-on` directive arguments. -/
def VUE_KEYBOARD_EVENT_NAMES : List String := ["keydown", "keyup", "keypress"]

/-- Stripped Vue mouse event names for `v-on` directive arguments. -/
def VUE_MOUSE_EVENT_NAMES : List String :=
  ["mousedown", "mouseup", "mouseover", "mouseout", "mouseenter", "mouseleave"]

/-- Stripped Vue focus event names for `v-on` directive arguments. -/
def VUE_FOCUS_EVENT_NAMES : List String := ["focus", "blur"]

/-- The unified Vue handler set `VUE_ALL_HANDLER_SET`. -/
def VUE_ALL_HANDLERS : List String :=
  VUE_CLICK_HANDLERS ++ VUE_KEYBOARD_HANDLERS ++ VUE_MOUSE_HANDLERS ++ VUE_FOCUS_HANDLERS

/-- The unified Vue event-name set `VUE_ALL_EVENT_NAMES`. -/
def VUE_ALL_EVENT_NAMES : List String :=
  VUE_CLICK_EVENT_NAMES ++ VUE_KEYBOARD_EVENT_NAMES ++ VUE_MOUSE_EVENT_NAMES ++ VUE_FOCUS_EVENT_NAMES

/-- The per-attribute test each JSX handler query applies: the attribute
is not a `JSXSpreadAttribute`, has a name, and the name is in the set.
(An empty attribute name is falsy in the source and is in no set, so
testing membership alone is equivalent.) -/
def jsxHandlerMatch (handlerSet : List String) (a : JSXAttr) : Bool :=
  match a with
  | .attr n _ => decide (n ∈ handlerSet)
  | .spread => false

/-- `hasJSXClickHandler` from `event-utils.ts`. -/
def hasJSXClickHandler (node : JSXNode) : Bool :=
  node.attributes.any (jsxHandlerMatch JSX_CLICK_HANDLERS)

/-- `hasJSXKeyboardHandler` from `event-utils.ts`. -/
def hasJSXKeyboardHandler (node : JSXNode) : Bool :=
  node.attributes.any (jsxHandlerMatch JSX_KEYBOARD_HANDLERS)

/-- `hasJSXMouseHandler` from `event-utils.ts`. -/
def hasJSXMouseHandler (node : JSXNode) : Bool :=
  node.attributes.any (jsxHandlerMatch JSX_MOUSE_HANDLERS)

/-- `hasJSXFocusHandler` from `event-utils.ts`. -/
def hasJSXFocusHandler (node : JSXNode) : Bool :=
  node.attributes.any (jsxHandlerMatch JSX_FOCUS_HANDLERS)

/-- `hasJSXEventHandler` from `event-utils.ts`: one pass against the
unified set. -/
def hasJSXEventHandler (node : JSXNode) : Bool :=
  node.attributes.any (jsxHandlerMatch JSX_ALL_HANDLERS)

/-- The per-attribute test of `hasVueEventAttribute`: either a plain
attribute whose key name is in the handler set, or a `v-on` directive
whose argument is in the (prefix-stripped) event-name set. (A directive's
key name is an object in the source, never equal to a string in the
handler set, so only plain attributes take the first branch.) -/
def vueHandlerMatch (handlerSet eventNames : List String) (a : VAttr) : Bool :=
  match a with
  | .plain n _ => decide (n ∈ handlerSet)
  | .directive d arg =>
    decide (d = "on") &&
      (match arg with
       | some e => decide (e ∈ eventNames)
       | none => false)

/-- `hasVueEventAttribute` from `event-utils.ts`: one pass over the start
tag's attributes. A node with no start tag has no attributes and yields
false, matching the empty list. -/
def hasVueEventAttribute (node : VNode) (handlerSet eventNames : List String) : Bool :=
  node.attributes.any (vueHandlerMatch handlerSet eventNames)

/-- `hasVueClickHandler` from `event-utils.ts`. -/
def hasVueClickHandler (node : VNode) : Bool :=
  hasVueEventAttribute node VUE_CLICK_HANDLERS VUE_CLICK_EVENT_NAMES

/-- `hasVueKeyboardHandler` from `event-utils.ts`. -/
def hasVueKeyboardHandler (node : VNode) : Bool :=
  hasVueEventAttribute node VUE_KEYBOARD_HANDLERS VUE_KEYBOARD_EVENT_NAMES

/-- `hasVueMouseHandler` from `event-utils.ts`. -/
def hasVueMouseHandler (node : VNode) : Bool :=
  hasVueEventAttribute node VUE_MOUSE_HANDLERS VUE_MOUSE_EVENT_NAMES

/-- `hasVueFocusHandler` from `event-utils.ts`. -/
def hasVueFocusHandler (node : VNode) : Bool :=
  hasVueEventAttribute node VUE_FOCUS_HANDLERS VUE_FOCUS_EVENT_NAMES

/-- `hasVueEventHandler` from `event-utils.ts`: one pass against the
unified handler and event-name sets. -/
def hasVueEventHandler (node : VNode) : Bool :=
  hasVueEventAttribute node VUE_ALL_HANDLERS VUE_ALL_EVENT_NAMES

/-- The JSX base handler names whose capture variants appear in the same
category set; `onMouseEnter` and `onMouseLeave` are the two bases whose
capture variants the source omits. -/
def JSX_CAPTURE_BASES : List String :=
  ["onClick", "onKeyDown", "onKeyUp", "onKeyPress",
   "onMouseDown", "onMouseUp", "onMouseOver", "onMouseOut",
   "onFocus", "onBlur"]

end EventUtils

lemma jsxHandlerMatch_append (L1 L2 : List String) (a : JSXAttr) :
    EventUtils.jsxHandlerMatch (L1 ++ L2) a =
      (EventUtils.jsxHandlerMatch L1 a || EventUtils.jsxHandlerMatch L2 a) := by
  cases a with
  | spread => rfl
  | attr n v =>
    by_cases h1 : n ∈ L1 <;> by_cases h2 : n ∈ L2 <;>
      simp [EventUtils.jsxHandlerMatch, List.mem_append, h1, h2]

lemma any_jsxHandlerMatch_append (attrs : List JSXAttr) (L1 L2 : List String) :
    attrs.any (EventUtils.jsxHandlerMatch (L1 ++ L2)) =
      (attrs.any (EventUtils.jsxHandlerMatch L1) || attrs.any (EventUtils.jsxHandlerMatch L2)) := by
  induction attrs with
  | nil => rfl
  | cons a rest ih =>
    cases h1 : EventUtils.jsxHandlerMatch L1 a <;>
      cases h2 : EventUtils.jsxHandlerMatch L2 a <;>
        simp [List.any_cons, jsxHandlerMatch_append, ih, h1, h2]

lemma vueHandlerMatch_append (H1 H2 E1 E2 : List String) (a : VAttr) :
    EventUtils.vueHandlerMatch (H1 ++ H2) (E1 ++ E2) a =
      (EventUtils.vueHandlerMatch H1 E1 a || EventUtils.vueHandlerMatch H2 E2 a) := by
  cases a with
  | plain n v =>
    by_cases h1 : n ∈ H1 <;> by_cases h2 : n ∈ H2 <;>
      simp [EventUtils.vueHandlerMatch, List.mem_append, h1, h2]
  | directive d arg =>
    cases arg with
    | none => simp [EventUtils.vueHandlerMatch]
    | some e =>
      by_cases hd : d = "on" <;> by_cases h1 : e ∈ E1 <;> by_cases h2 : e ∈ E2 <;>
        simp [EventUtils.vueHandlerMatch, List.mem_append, hd, h1, h2]

lemma any_vueHandlerMatch_append (attrs : List VAttr) (H1 H2 E1 E2 : List String) :
    attrs.any (EventUtils.vueHandlerMatch (H1 ++ H2) (E1 ++ E2)) =
      (attrs.any (EventUtils.vueHandlerMatch H1 E1) ||
       attrs.any (EventUtils.vueHandlerMatch H2 E2)) := by
  induction attrs with
  | nil => rfl
  | cons a rest ih =>
    cases h1 : EventUtils.vueHandlerMatch H1 E1 a <;>
      cases h2 : EventUtils.vueHandlerMatch H2 E2 a <;>
        simp [List.any_cons, vueHandlerMatch_append, ih, h1, h2]

/-- C1: for every element node in either dialect, the any-handler query
equals the disjunction of the four category queries: `hasJSXEventHandler`
is true exactly when one of the four JSX category queries is true, and
`hasVueEventHandler` is true exactly when one of the four Vue category
queries is true. -/
theorem anyHandler_iff_union_of_categories :
    (∀ node : JSXNode,
      EventUtils.hasJSXEventHandler node = true ↔
        (EventUtils.hasJSXClickHandler node = true ∨
         EventUtils.hasJSXKeyboardHandler node = true ∨
         EventUtils.hasJSXMouseHandler node = true ∨
         EventUtils.hasJSXFocusHandler node = true)) ∧
    (∀ node : VNode,
      EventUtils.hasVueEventHandler node = true ↔
        (EventUtils.hasVueClickHandler node = true ∨
         EventUtils.hasVueKeyboardHandler node = true ∨
         EventUtils.hasVueMouseHandler node = true ∨
         EventUtils.hasVueFocusHandler node = true)) := by
  constructor
  · intro node
    have h : EventUtils.hasJSXEventHandler node =
        (EventUtils.hasJSXClickHandler node ||
         (EventUtils.hasJSXKeyboardHandler node ||
          (EventUtils.hasJSXMouseHandler node || EventUtils.hasJSXFocusHandler node))) := by
      simp only [EventUtils.hasJSXEventHandler, EventUtils.hasJSXClickHandler,
        EventUtils.hasJSXKeyboardHandler, EventUtils.hasJSXMouseHandler,
        EventUtils.hasJSXFocusHandler, EventUtils.JSX_ALL_HANDLERS,
        any_jsxHandlerMatch_append, Bool.or_assoc]
    rw [h]
    simp [Bool.or_eq_true, or_assoc]
  · intro node
    have h : EventUtils.hasVueEventHandler node =
        (EventUtils.hasVueClickHandler node ||
         (EventUtils.hasVueKeyboardHandler node ||
          (EventUtils.hasVueMouseHandler node || EventUtils.hasVueFocusHandler node))) := by
      simp only [EventUtils.hasVueEventHandler, EventUtils.hasVueClickHandler,
        EventUtils.hasVueKeyboardHandler, EventUtils.hasVueMouseHandler,
        EventUtils.hasVueFocusHandler, EventUtils.hasVueEventAttribute,
        EventUtils.VUE_ALL_HANDLERS, EventUtils.VUE_ALL_EVENT_NAMES,
        any_vueHandlerMatch_append, Bool.or_assoc]
    rw [h]
    simp [Bool.or_eq_true, or_assoc]

/-- C2 counterexample: the claim lists `onMouseEnter` and `onMouseLeave`
among the base names whose capture variants classify identically, but the
source's `JSX_MOUSE_HANDLERS` omits `onMouseEnterCapture` and
`onMouseLeaveCapture`, so a node carrying only `onMouseEnterCapture` is
not counted as having a mouse handler while one carrying `onMouseEnter`
is. -/
theorem mouseEnterCapture_not_classified :
    EventUtils.hasJSXMouseHandler ⟨some "div", [.attr "onMouseEnter" .null]⟩ = true ∧
    EventUtils.hasJSXMouseHandler ⟨some "div", [.attr "onMouseEnterCapture" .null]⟩ = false ∧
    EventUtils.hasJSXEventHandler ⟨some "div", [.attr "onMouseEnterCapture" .null]⟩ = false := by
  refine ⟨by decide, by decide, by decide⟩

/-- C2 amended: for every JSX base handler name except `onMouseEnter` and
`onMouseLeave`, the `Capture` variant lies in the same category set, and
every category query (and the any-handler query) answers the same on a
node carrying the base name as on the node carrying its capture variant
instead. -/
theorem capture_variant_same_category :
    ∀ b ∈ EventUtils.JSX_CAPTURE_BASES,
      ((b ∈ EventUtils.JSX_CLICK_HANDLERS → b ++ "Capture" ∈ EventUtils.JSX_CLICK_HANDLERS) ∧
       (b ∈ EventUtils.JSX_KEYBOARD_HANDLERS → b ++ "Capture" ∈ EventUtils.JSX_KEYBOARD_HANDLERS) ∧
       (b ∈ EventUtils.JSX_MOUSE_HANDLERS → b ++ "Capture" ∈ EventUtils.JSX_MOUSE_HANDLERS) ∧
       (b ∈ EventUtils.JSX_FOCUS_HANDLERS → b ++ "Capture" ∈ EventUtils.JSX_FOCUS_HANDLERS)) ∧
      ∀ (t : Option String) (pre post : List JSXAttr) (v w : JSXAttrValue),
        (EventUtils.hasJSXClickHandler ⟨t, pre ++ .attr b v :: post⟩ =
          EventUtils.hasJSXClickHandler ⟨t, pre ++ .attr (b ++ "Capture") w :: post⟩) ∧
        (EventUtils.hasJSXKeyboardHandler ⟨t, pre ++ .attr b v :: post⟩ =
          EventUtils.hasJSXKeyboardHandler ⟨t, pre ++ .attr (b ++ "Capture") w :: post⟩) ∧
        (EventUtils.hasJSXMouseHandler ⟨t, pre ++ .attr b v :: post⟩ =
          EventUtils.hasJSXMouseHandler ⟨t, pre ++ .attr (b ++ "Capture") w :: post⟩) ∧
        (EventUtils.hasJSXFocusHandler ⟨t, pre ++ .attr b v :: post⟩ =
          EventUtils.hasJSXFocusHandler ⟨t, pre ++ .attr (b ++ "Capture") w :: post⟩) ∧
        (EventUtils.hasJSXEventHandler ⟨t, pre ++ .attr b v :: post⟩ =
          EventUtils.hasJSXEventHandler ⟨t, pre ++ .attr (b ++ "Capture") w :: post⟩) := by
  have key : ∀ c ∈ EventUtils.JSX_CAPTURE_BASES,
      (decide (c ∈ EventUtils.JSX_CLICK_HANDLERS) =
        decide ((c ++ "Capture") ∈ EventUtils.JSX_CLICK_HANDLERS)) ∧
      (decide (c ∈ EventUtils.JSX_KEYBOARD_HANDLERS) =
        decide ((c ++ "Capture") ∈ EventUtils.JSX_KEYBOARD_HANDLERS)) ∧
      (decide (c ∈ EventUtils.JSX_MOUSE_HANDLERS) =
        decide ((c ++ "Capture") ∈ EventUtils.JSX_MOUSE_HANDLERS)) ∧
      (decide (c ∈ EventUtils.JSX_FOCUS_HANDLERS) =
        decide ((c ++ "Capture") ∈ EventUtils.JSX_FOCUS_HANDLERS)) ∧
      (decide (c ∈ EventUtils.JSX_ALL_HANDLERS) =
        decide ((c ++ "Capture") ∈ EventUtils.JSX_ALL_HANDLERS)) := by decide
  have mem : ∀ c ∈ EventUtils.JSX_CAPTURE_BASES,
      (c ∈ EventUtils.JSX_CLICK_HANDLERS → c ++ "Capture" ∈ EventUtils.JSX_CLICK_HANDLERS) ∧
      (c ∈ EventUtils.JSX_KEYBOARD_HANDLERS → c ++ "Capture" ∈ EventUtils.JSX_KEYBOARD_HANDLERS) ∧
      (c ∈ EventUtils.JSX_MOUSE_HANDLERS → c ++ "Capture" ∈ EventUtils.JSX_MOUSE_HANDLERS) ∧
      (c ∈ EventUtils.JSX_FOCUS_HANDLERS → c ++ "Capture" ∈ EventUtils.JSX_FOCUS_HANDLERS) := by
    decide
  intro b hb
  obtain ⟨k1, k2, k3, k4, k5⟩ := key b hb
  refine ⟨mem b hb, ?_⟩
  intro t pre post v w
  refine ⟨?_, ?_, ?_, ?_, ?_⟩
  · simp only [EventUtils.hasJSXClickHandler, List.any_append, List.any_cons,
      EventUtils.jsxHandlerMatch, k1]
  · simp only [EventUtils.hasJSXKeyboardHandler, List.any_append, List.any_cons,
      EventUtils.jsxHandlerMatch, k2]
  · simp only [EventUtils.hasJSXMouseHandler, List.any_append, List.any_cons,
      EventUtils.jsxHandlerMatch, k3]
  · simp only [EventUtils.hasJSXFocusHandler, List.any_append, List.any_cons,
      EventUtils.jsxHandlerMatch, k4]
  · simp only [EventUtils.hasJSXEventHandler, List.any_append, List.any_cons,
      EventUtils.jsxHandlerMatch, k5]

/-- C2 amended, witnessed at `onClick`: `onClick` is a capture base, its
variant sits in the click set, and the click query answers the same on a
`<div onClick>` as on a `<div onClickCapture>`. -/
theorem capture_variant_same_category_witness :
    "onClick" ∈ EventUtils.JSX_CAPTURE_BASES ∧
    ("onClick" ∈ EventUtils.JSX_CLICK_HANDLERS →
      "onClick" ++ "Capture" ∈ EventUtils.JSX_CLICK_HANDLERS) ∧
    EventUtils.hasJSXClickHandler ⟨some "div", [.attr "onClick" .null]⟩ =
      EventUtils.hasJSXClickHandler ⟨some "div", [.attr ("onClick" ++ "Capture") .null]⟩ := by
  have h := capture_variant_same_category "onClick" (by decide)
  exact ⟨by decide, h.1.1, (h.2 (some "div") [] [] .null .null).1⟩

/-- C3: within each dialect the four handler-category name sets are
pairwise disjoint — across the JSX handler sets, the Vue handler
attribute-name sets, and the stripped Vue per-category event-name
sets. -/
theorem handler_categories_pairwise_disjoint :
    (∀ a ∈ EventUtils.JSX_CLICK_HANDLERS, a ∉ EventUtils.JSX_KEYBOARD_HANDLERS) ∧
    (∀ a ∈ EventUtils.JSX_CLICK_HANDLERS, a ∉ EventUtils.JSX_MOUSE_HANDLERS) ∧
    (∀ a ∈ EventUtils.JSX_CLICK_HANDLERS, a ∉ EventUtils.JSX_FOCUS_HANDLERS) ∧
    (∀ a ∈ EventUtils.JSX_KEYBOARD_HANDLERS, a ∉ EventUtils.JSX_MOUSE_HANDLERS) ∧
    (∀ a ∈ EventUtils.JSX_KEYBOARD_HANDLERS, a ∉ EventUtils.JSX_FOCUS_HANDLERS) ∧
    (∀ a ∈ EventUtils.JSX_MOUSE_HANDLERS, a ∉ EventUtils.JSX_FOCUS_HANDLERS) ∧
    (∀ a ∈ EventUtils.VUE_CLICK_HANDLERS, a ∉ EventUtils.VUE_KEYBOARD_HANDLERS) ∧
    (∀ a ∈ EventUtils.VUE_CLICK_HANDLERS, a ∉ EventUtils.VUE_MOUSE_HANDLERS) ∧
    (∀ a ∈ EventUtils.VUE_CLICK_HANDLERS, a ∉ EventUtils.VUE_FOCUS_HANDLERS) ∧
    (∀ a ∈ EventUtils.VUE_KEYBOARD_HANDLERS, a ∉ EventUtils.VUE_MOUSE_HANDLERS) ∧
    (∀ a ∈ EventUtils.VUE_KEYBOARD_HANDLERS, a ∉ EventUtils.VUE_FOCUS_HANDLERS) ∧
    (∀ a ∈ EventUtils.VUE_MOUSE_HANDLERS, a ∉ EventUtils.VUE_FOCUS_HANDLERS) ∧
    (∀ a ∈ EventUtils.VUE_CLICK_EVENT_NAMES, a ∉ EventUtils.VUE_KEYBOARD_EVENT_NAMES) ∧
    (∀ a ∈ EventUtils.VUE_CLICK_EVENT_NAMES, a ∉ EventUtils.VUE_MOUSE_EVENT_NAMES) ∧
    (∀ a ∈ EventUtils.VUE_CLICK_EVENT_NAMES, a ∉ EventUtils.VUE_FOCUS_EVENT_NAMES) ∧
    (∀ a ∈ EventUtils.VUE_KEYBOARD_EVENT_NAMES, a ∉ EventUtils.VUE_MOUSE_EVENT_NAMES) ∧
    (∀ a ∈ EventUtils.VUE_KEYBOARD_EVENT_NAMES, a ∉ EventUtils.VUE_FOCUS_EVENT_NAMES) ∧
    (∀ a ∈ EventUtils.VUE_MOUSE_EVENT_NAMES, a ∉ EventUtils.VUE_FOCUS_EVENT_NAMES) := by
  decide

namespace ComponentMapping

/-- Modelled from the spec: the `component-mapping` module is not among
the sources. The recognized lower-case HTML vocabulary (`NATIVE_TAGS`)
used by step 1 of the resolver of section 4.3. -/
def NATIVE_TAGS : List String :=
  ["a", "abbr", "address", "area", "article", "aside", "audio", "b",
   "blockquote", "body", "br", "button", "caption", "code", "dd",
   "details", "dialog", "div", "dl", "dt", "em", "fieldset", "figcaption",
   "figure", "footer", "form", "h1", "h2", "h3", "h4", "h5", "h6",
   "header", "hr", "html", "i", "iframe", "img", "input", "label",
   "legend", "li", "main", "mark", "meter", "nav", "ol", "option", "p",
   "pre", "progress", "section", "select", "small", "span", "strong",
   "sub", "summary", "sup", "table", "tbody", "td", "textarea", "tfoot",
   "th", "thead", "time", "tr", "ul", "video"]

/-- Modelled from the spec: a `ComponentMapping` entry — the native tag a
custom component stands for, and an optional override of the polymorphic
prop name list (section 3). -/
structure MappingEntry where
  nativeTag : String
  polymorphicPropNames : Option (List String)
deriving DecidableEq

/-- Modelled from the spec: the mapping from custom component identifiers
to entries, supplied once per run. -/
abbrev Mapping := List (String × MappingEntry)

/-- Modelled from the spec: the default polymorphic prop name list
(`as`, `component`), applied when a component's entry does not override
it (section 3). -/
def DEFAULT_POLYMORPHIC_PROPS : List String := ["as", "component"]

/-- Modelled from the spec: `resolveNativeTag` from `component-mapping`,
following the four-step algorithm of section 4.3: (1) a recognized
native tag resolves to itself; (2) otherwise the mapping supplies a
candidate native tag; (3) independently, a polymorphic prop (the entry's
list, or the default `as`/`component`) whose static string value names a
native tag or another mapped component overrides the candidate; (4)
otherwise the tag is unresolved. -/
def resolveNativeTag (mapping : Mapping) (node : JSXNode) : Option String :=
  match node.tag with
  | none => none
  | some t =>
    if t ∈ NATIVE_TAGS then some t
    else
      let entry := (mapping.find? fun p => p.1 == t).map fun p => p.2
      let polyNames :=
        match entry with
        | some e =>
          match e.polymorphicPropNames with
          | some ns => ns
          | none => DEFAULT_POLYMORPHIC_PROPS
        | none => DEFAULT_POLYMORPHIC_PROPS
      let polyVal := node.attributes.findSome? fun a =>
        match a with
        | .attr n v =>
          match jsxStaticLiteralString v with
          | some s =>
            if n ∈ polyNames ∧ (s ∈ NATIVE_TAGS ∨ mapping.any fun p => p.1 == s)
            then some s else none
          | none => none
        | .spread => none
      match polyVal with
      | some s =>
        if s ∈ NATIVE_TAGS then some s
        else (mapping.find? fun p => p.1 == s).map fun p => p.2.nativeTag
      | none => entry.map fun e => e.nativeTag

/-- Modelled from the spec: `getElementRoleFromJSX` from
`component-mapping`, the rules' entry point for resolving a node's
effective native tag; it applies `resolveNativeTag` with the configured
mapping. -/
def getElementRoleFromJSX (mapping : Mapping) (node : JSXNode) : Option String :=
  resolveNativeTag mapping node

/-- Modelled from the spec: `isElementLike` from `component-mapping` —
whether a node's effective native tag is the given tag. -/
def isElementLike (mapping : Mapping) (node : JSXNode) (tag : String) : Bool :=
  resolveNativeTag mapping node == some tag

end ComponentMapping

/-- C4: with the mapping `{ Button: { nativeTag: button } }`, a
`<Button as="a">` node resolves to `"a"` — the polymorphic prop's static
string value overrides the mapping-derived tag — while a bare `<Button>`
resolves to `"button"` from the mapping. -/
theorem resolveNativeTag_polymorphic_override :
    ComponentMapping.resolveNativeTag [("Button", ⟨"button", none⟩)]
      ⟨some "Button", [.attr "as" (.lit (.str "a"))]⟩ = some "a" ∧
    ComponentMapping.resolveNativeTag [("Button", ⟨"button", none⟩)]
      ⟨some "Button", []⟩ = some "button" := by
  refine ⟨by decide, by decide⟩

namespace FormLabel

/-- The truthiness of `idAttr?.value?.value` in the `form-label` rule's
JSX visitor: the `id` attribute's direct `Literal` value, if truthy. An
expression container or missing value reads as `undefined`, which is
falsy. -/
def jsxIdTruthy (node : JSXNode) : Bool :=
  match getJSXAttribute node "id" with
  | some (.lit v) => litTruthy v
  | _ => false

/-- The truthiness of `idAttr?.value?.value` in the `form-label` rule's
Vue visitor: the plain `id` attribute's `VLiteral` string value, if
non-empty. -/
def vueIdTruthy (node : VNode) : Bool :=
  match getVueAttribute node "id" with
  | some (some s) => !(s == "")
  | _ => false

/-- The `form-label` rule's `JSXOpeningElement` visitor: on an `input`,
`select` or `textarea` (identifier, lower-cased), report `missingLabel`
exactly when there is no `aria-label` attribute, no `aria-labelledby`
attribute, and the `id` attribute's direct literal value is not truthy. -/
def checkJSX (node : JSXNode) : Bool :=
  match node.tag with
  | none => false
  | some t =>
    let tagName := jsToLower t
    if tagName == "input" || tagName == "select" || tagName == "textarea" then
      let hasAriaLabel := hasJSXAttribute node "aria-label"
      let hasAriaLabelledBy := hasJSXAttribute node "aria-labelledby"
      !hasAriaLabel && !hasAriaLabelledBy && !(jsxIdTruthy node)
    else false

/-- The `form-label` rule's `VElement` visitor: same policy over the Vue
dialect. -/
def checkVue (node : VNode) : Bool :=
  let tagName := jsToLower node.name
  if tagName == "input" || tagName == "select" || tagName == "textarea" then
    let hasAriaLabel := hasVueAttribute node "aria-label"
    let hasAriaLabelledBy := hasVueAttribute node "aria-labelledby"
    !hasAriaLabel && !hasAriaLabelledBy && !(vueIdTruthy node)
  else false

end FormLabel

namespace AnchorIsValid

/-- `INVALID_HREFS` from the `anchor-is-valid` rule. -/
def INVALID_HREFS : List String := ["", "#"]

/-- `isInvalidHref` from the `anchor-is-valid` rule: the empty string,
`"#"`, or any value beginning case-insensitively with `javascript:`. -/
def isInvalidHref (value : String) : Bool :=
  decide (value ∈ INVALID_HREFS) || jsStartsWith (jsToLower value) "javascript:"

/-- The diagnostics the `anchor-is-valid` rule reports. -/
inductive Report
  | missingHref
  | preferButton
  | invalidHref (href : String)
deriving DecidableEq

/-- The `anchor-is-valid` rule's `JSXOpeningElement` visitor: on an `a`
element (literally, or element-like through the component mapping),
report `preferButton`/`missingHref` when `href` is absent, and
`invalidHref` with the href value when the `href` attribute's direct
`Literal` string value is invalid. -/
def checkJSX (mapping : ComponentMapping.Mapping) (node : JSXNode) : Option Report :=
  match node.tag with
  | none => none
  | some t =>
    if t ≠ "a" ∧ ¬ ComponentMapping.isElementLike mapping node "a" = true then none
    else
      match getJSXAttribute node "href" with
      | none =>
        if hasJSXAttribute node "onClick" then some .preferButton else some .missingHref
      | some v =>
        match v with
        | .lit (.str s) => if isInvalidHref s then some (.invalidHref s) else none
        | _ => none

/-- The `anchor-is-valid` rule's `VElement` visitor. -/
def checkVue (node : VNode) : Option Report :=
  if node.name ≠ "a" then none
  else
    match getVueAttribute node "href" with
    | none =>
      let hasClickHandler := node.attributes.any fun a =>
        match a with
        | .directive d (some arg) => d == "on" && arg == "click"
        | _ => false
      if hasClickHandler then some .preferButton else some .missingHref
    | some v =>
      match v with
      | some s => if isInvalidHref s then some (.invalidHref s) else none
      | none => none

end AnchorIsValid

namespace NoNonintToInteractiveRole

/-- `NON_INTERACTIVE_ELEMENTS` from the
`no-noninteractive-element-to-interactive-role` rule. -/
def NON_INTERACTIVE_ELEMENTS : List String :=
  ["div", "span", "section", "article", "aside", "footer", "header", "nav",
   "main", "p", "ul", "ol", "li", "dl", "dt", "dd", "table", "thead",
   "tbody", "tfoot", "tr", "th", "td", "caption", "figure", "figcaption",
   "blockquote", "pre", "code", "em", "strong", "small", "mark", "sub",
   "sup", "address", "time", "abbr", "h1", "h2", "h3", "h4", "h5", "h6",
   "img", "hr"]

/-- `INTERACTIVE_ROLES` from the rule. -/
def INTERACTIVE_ROLES : List String :=
  ["button", "link", "checkbox", "radio", "textbox", "combobox", "listbox",
   "option", "menuitem", "menuitemcheckbox", "menuitemradio", "slider",
   "spinbutton", "switch", "tab", "treeitem", "gridcell", "searchbox",
   "scrollbar"]

/-- The rule's local keyboard handler list (`onKeyDown`, `onKeyUp`,
`onKeyPress` — distinct from the event-utils sets). -/
def JSX_KEYBOARD_HANDLERS : List String := ["onKeyDown", "onKeyUp", "onKeyPress"]

/-- The rule's local `hasJSXKeyboardHandler`: some listed handler is
present as an attribute. -/
def hasJSXKeyboardHandler (node : JSXNode) : Bool :=
  JSX_KEYBOARD_HANDLERS.any fun h => hasJSXAttribute node h

/-- The rule's local `hasVueKeyboardHandler`: some `v-on` directive whose
argument is `keydown`, `keyup` or `keypress`. -/
def hasVueKeyboardHandler (node : VNode) : Bool :=
  node.attributes.any fun a =>
    match a with
    | .directive d (some arg) =>
      d == "on" && decide (arg ∈ (["keydown", "keyup", "keypress"] : List String))
    | _ => false

/-- The rule's `JSXOpeningElement` visitor: on a non-interactive element
(resolved through the component mapping) carrying a static interactive
role, report `(element, role)` unless both a `tabIndex`/`tabindex`
attribute and a keyboard handler are present. -/
def checkJSX (mapping : ComponentMapping.Mapping) (node : JSXNode) : Option (String × String) :=
  match ComponentMapping.getElementRoleFromJSX mapping node with
  | none => none
  | some tagName =>
    if tagName ∉ NON_INTERACTIVE_ELEMENTS then none
    else
      match getJSXAttribute node "role" with
      | none => none
      | some rv =>
        match jsxStaticLiteralString rv with
        | none => none
        | some r =>
          let role := jsToLower r
          if role ∉ INTERACTIVE_ROLES then none
          else
            let hasTabIndex := hasJSXAttribute node "tabIndex" || hasJSXAttribute node "tabindex"
            let hasKeyboard := hasJSXKeyboardHandler node
            if !hasTabIndex || !hasKeyboard then some (tagName, role) else none

/-- The rule's `VElement` visitor. -/
def checkVue (node : VNode) : Option (String × String) :=
  let tagName := jsToLower node.name
  if tagName ∉ NON_INTERACTIVE_ELEMENTS then none
  else
    match getVueAttribute node "role" with
    | some (some rv) =>
      let role := jsToLower rv
      if role ∉ INTERACTIVE_ROLES then none
      else
        let hasTabIndex := hasVueAttribute node "tabindex"
        let hasKeyboard := hasVueKeyboardHandler node
        if !hasTabIndex || !hasKeyboard then some (tagName, role) else none
    | _ => none

end NoNonintToInteractiveRole

namespace Scope

/-- `VALID_SCOPE_VALUES` from the `scope` rule. -/
def VALID_SCOPE_VALUES : List String := ["col", "row", "colgroup", "rowgroup"]

/-- The diagnostics the `scope` rule reports, with their message data. -/
inductive Report
  | invalidElement (element : String)
  | invalidValue (value : String)
deriving DecidableEq

/-- The `scope` rule's `JSXOpeningElement` visitor: any identifier
element other than `th` carrying a `scope` attribute is reported as
`invalidElement`; a `th` whose `scope` value resolves to a static string
outside the valid set is reported as `invalidValue` (lower-cased). -/
def checkJSX (node : JSXNode) : Option Report :=
  match node.tag with
  | none => none
  | some t =>
    if !hasJSXAttribute node "scope" then none
    else
      let tagName := jsToLower t
      if tagName ≠ "th" then some (.invalidElement tagName)
      else
        match getJSXAttribute node "scope" with
        | none => none
        | some v =>
          match jsxStaticLiteralString v with
          | none => none
          | some s =>
            let scopeValue := jsToLower s
            if scopeValue ∉ VALID_SCOPE_VALUES then some (.invalidValue scopeValue) else none

/-- The `scope` rule's `VElement` visitor. -/
def checkVue (node : VNode) : Option Report :=
  let tagName := jsToLower node.name
  if !hasVueAttribute node "scope" then none
  else if tagName ≠ "th" then some (.invalidElement tagName)
  else
    match getVueAttribute node "scope" with
    | some (some s) =>
      let scopeValue := jsToLower s
      if scopeValue ∉ VALID_SCOPE_VALUES then some (.invalidValue scopeValue) else none
    | _ => none

end Scope

namespace PreferTagOverRole

/-- `ROLE_TO_TAG` from the `prefer-tag-over-role` rule: ARIA role to the
suggested native element text. -/
def ROLE_TO_TAG : List (String × String) :=
  [("button", "<button>"),
   ("checkbox", "<input type=\x22checkbox\x22>"),
   ("combobox", "<select>"),
   ("form", "<form>"),
   ("heading", "<h1>-<h6> (with aria-level)"),
   ("img", "<img>"),
   ("link", "<a href=\x22...\x22>"),
   ("list", "<ul> or <ol>"),
   ("listitem", "<li>"),
   ("listbox", "<select multiple>"),
   ("main", "<main>"),
   ("navigation", "<nav>"),
   ("complementary", "<aside>"),
   ("banner", "<header>"),
   ("contentinfo", "<footer>"),
   ("region", "<section aria-label=\x22...\x22>"),
   ("radio", "<input type=\x22radio\x22>"),
   ("searchbox", "<input type=\x22search\x22>"),
   ("slider", "<input type=\x22range\x22>"),
   ("spinbutton", "<input type=\x22number\x22>"),
   ("table", "<table>"),
   ("textbox", "<input> or <textarea>"),
   ("meter", "<meter>"),
   ("progressbar", "<progress>"),
   ("radiogroup", "<fieldset>"),
   ("row", "<tr>"),
   ("rowgroup", "<thead>, <tbody>, or <tfoot>"),
   ("columnheader", "<th scope=\x22col\x22>"),
   ("rowheader", "<th scope=\x22row\x22>"),
   ("article", "<article>"),
   ("separator", "<hr>"),
   ("term", "<dt>"),
   ("definition", "<dd>")]

/-- `GENERIC_ELEMENTS` from the rule (identical in both visitors). -/
def GENERIC_ELEMENTS : List String :=
  ["div", "span", "section", "article", "aside", "footer", "header",
   "nav", "main", "p", "ul", "ol", "li", "dl", "dt", "dd",
   "figure", "figcaption", "blockquote", "pre", "i", "b", "em",
   "strong", "small", "mark", "sub", "sup", "address"]

/-- `getStaticRole` from the rule, on the JSX dialect: the `role`
attribute's value as a static lower-cased string — a `Literal` string or
an expression container wrapping one; anything else is `null`. -/
def getStaticRoleJSX (node : JSXNode) : Option String :=
  match getJSXAttribute node "role" with
  | none => none
  | some v => (jsxStaticLiteralString v).map jsToLower

/-- `getStaticRole` from the rule, on the Vue dialect: the plain `role`
attribute's `VLiteral` string value, lower-cased. -/
def getStaticRoleVue (node : VNode) : Option String :=
  match getVueAttribute node "role" with
  | some (some s) => some (jsToLower s)
  | _ => none

/-- The `prefer-tag-over-role` rule's `JSXOpeningElement` visitor:
reports `(preferredTag, role)` on a generic element whose static role is
a key of `ROLE_TO_TAG`. -/
def checkJSX (node : JSXNode) : Option (String × String) :=
  match node.tag with
  | none => none
  | some t =>
    let tagName := jsToLower t
    if tagName ∉ GENERIC_ELEMENTS then none
    else
      match getStaticRoleJSX node with
      | none => none
      | some role =>
        match ROLE_TO_TAG.find? fun p => p.1 == role with
        | none => none
        | some p => some (p.2, role)

/-- The `prefer-tag-over-role` rule's `VElement` visitor. -/
def checkVue (node : VNode) : Option (String × String) :=
  let tagName := jsToLower node.name
  if tagName ∉ GENERIC_ELEMENTS then none
  else
    match getStaticRoleVue node with
    | none => none
    | some role =>
      match ROLE_TO_TAG.find? fun p => p.1 == role with
      | none => none
      | some p => some (p.2, role)

end PreferTagOverRole

lemma hasJSXAttribute_eq_isSome (node : JSXNode) (name : String) :
    hasJSXAttribute node name = (getJSXAttribute node name).isSome := by
  obtain ⟨t, attrs⟩ := node
  induction attrs with
  | nil => rfl
  | cons a rest ih =>
    simp only [hasJSXAttribute, getJSXAttribute] at ih ⊢
    cases a with
    | spread => simpa [List.any_cons, List.findSome?] using ih
    | attr n v =>
      cases h : n == name <;> simp [List.any_cons, List.findSome?, h, ih]

lemma hasVueAttribute_eq_isSome (node : VNode) (name : String) :
    hasVueAttribute node name = (getVueAttribute node name).isSome := by
  obtain ⟨t, attrs⟩ := node
  induction attrs with
  | nil => rfl
  | cons a rest ih =>
    simp only [hasVueAttribute, getVueAttribute] at ih ⊢
    cases a with
    | directive d arg => simpa [List.any_cons, List.findSome?] using ih
    | plain n v =>
      cases h : n == name <;> simp [List.any_cons, List.findSome?, h, ih]

/-- C5: on a non-interactive element (as resolved through the component
mapping) carrying a static interactive role, the
`no-noninteractive-element-to-interactive-role` rule reports
`(element, role)` exactly when the element lacks a `tabIndex`/`tabindex`
attribute or lacks a keyboard event handler — in both dialects. -/
theorem noNonintToInteractive_reports_iff_missing_keyboard_support :
    (∀ (mapping : ComponentMapping.Mapping) (node : JSXNode) (e : String)
        (rv : JSXAttrValue) (r : String),
      ComponentMapping.getElementRoleFromJSX mapping node = some e →
      e ∈ NoNonintToInteractiveRole.NON_INTERACTIVE_ELEMENTS →
      getJSXAttribute node "role" = some rv →
      jsxStaticLiteralString rv = some r →
      jsToLower r ∈ NoNonintToInteractiveRole.INTERACTIVE_ROLES →
      NoNonintToInteractiveRole.checkJSX mapping node =
        if (hasJSXAttribute node "tabIndex" || hasJSXAttribute node "tabindex") &&
            NoNonintToInteractiveRole.hasJSXKeyboardHandler node
        then none else some (e, jsToLower r)) ∧
    (∀ (node : VNode) (s : String),
      jsToLower node.name ∈ NoNonintToInteractiveRole.NON_INTERACTIVE_ELEMENTS →
      getVueAttribute node "role" = some (some s) →
      jsToLower s ∈ NoNonintToInteractiveRole.INTERACTIVE_ROLES →
      NoNonintToInteractiveRole.checkVue node =
        if hasVueAttribute node "tabindex" &&
            NoNonintToInteractiveRole.hasVueKeyboardHandler node
        then none else some (jsToLower node.name, jsToLower s)) := by
  constructor
  · intro mapping node e rv r h1 h2 h3 h4 h5
    cases h6 : hasJSXAttribute node "tabIndex" <;>
      cases h7 : hasJSXAttribute node "tabindex" <;>
        cases h8 : NoNonintToInteractiveRole.hasJSXKeyboardHandler node <;>
          simp [NoNonintToInteractiveRole.checkJSX, h1, h2, h3, h4, h5, h6, h7, h8]
  · intro node s h1 h2 h3
    cases h4 : hasVueAttribute node "tabindex" <;>
      cases h5 : NoNonintToInteractiveRole.hasVueKeyboardHandler node <;>
        simp [NoNonintToInteractiveRole.checkVue, h1, h2, h3, h4, h5]

/-- C5, witnessed on `<div role="button">`: with no `tabIndex` and no
keyboard handler the rule reports `(div, button)`, and with
`tabIndex={0}` and `onKeyDown={fn}` it reports nothing. -/
theorem noNonintToInteractive_witness :
    NoNonintToInteractiveRole.checkJSX []
      ⟨some "div", [.attr "role" (.lit (.str "button"))]⟩ = some ("div", "button") ∧
    NoNonintToInteractiveRole.checkJSX []
      ⟨some "div", [.attr "role" (.lit (.str "button")),
        .attr "tabIndex" (.exprLit (.num 0)), .attr "onKeyDown" .exprDyn]⟩ = none := by
  constructor
  · have h := noNonintToInteractive_reports_iff_missing_keyboard_support.1 []
      ⟨some "div", [.attr "role" (.lit (.str "button"))]⟩ "div" (.lit (.str "button")) "button"
      (by decide) (by decide) (by decide) (by decide) (by decide)
    rw [h]; decide
  · have h := noNonintToInteractive_reports_iff_missing_keyboard_support.1 []
      ⟨some "div", [.attr "role" (.lit (.str "button")),
        .attr "tabIndex" (.exprLit (.num 0)), .attr "onKeyDown" .exprDyn]⟩
      "div" (.lit (.str "button")) "button"
      (by decide) (by decide) (by decide) (by decide) (by decide)
    rw [h]; decide

/-- C6: a spread attribute never counts as attribute presence —
`hasAttribute` on `<input {...props} />` answers false for `aria-label`,
and the `form-label` rule still reports a missing label on a Vue
`<input v-bind="attrs">` with no literal labelling attribute: the spread
does not suppress the diagnostic. -/
theorem spread_never_counts_as_presence :
    hasJSXAttribute ⟨some "input", [.spread]⟩ "aria-label" = false ∧
    FormLabel.checkVue ⟨"input", [.directive "bind" none]⟩ = true := by
  refine ⟨by decide, by decide⟩

/-- C7: the `scope` rule reports `invalidElement` for every element other
than `th` carrying a `scope` attribute, whatever its value, and
`invalidValue` (with the lower-cased value) for every `th` whose `scope`
value is a static string outside `{col, row, colgroup, rowgroup}` — in
both dialects. -/
theorem scope_rule_reports :
    (∀ (node : JSXNode) (t : String),
      node.tag = some t → hasJSXAttribute node "scope" = true → jsToLower t ≠ "th" →
      Scope.checkJSX node = some (.invalidElement (jsToLower t))) ∧
    (∀ (node : JSXNode) (t : String) (v : JSXAttrValue) (s : String),
      node.tag = some t → jsToLower t = "th" →
      getJSXAttribute node "scope" = some v → jsxStaticLiteralString v = some s →
      jsToLower s ∉ Scope.VALID_SCOPE_VALUES →
      Scope.checkJSX node = some (.invalidValue (jsToLower s))) ∧
    (∀ node : VNode,
      hasVueAttribute node "scope" = true → jsToLower node.name ≠ "th" →
      Scope.checkVue node = some (.invalidElement (jsToLower node.name))) ∧
    (∀ (node : VNode) (s : String),
      jsToLower node.name = "th" → getVueAttribute node "scope" = some (some s) →
      jsToLower s ∉ Scope.VALID_SCOPE_VALUES →
      Scope.checkVue node = some (.invalidValue (jsToLower s))) := by
  refine ⟨?_, ?_, ?_, ?_⟩
  · intro node t h1 h2 h3
    simp [Scope.checkJSX, h1, h2, h3]
  · intro node t v s h1 h2 h3 h4 h5
    have h6 : hasJSXAttribute node "scope" = true := by
      rw [hasJSXAttribute_eq_isSome, h3]; rfl
    simp [Scope.checkJSX, h1, h2, h3, h4, h5, h6]
  · intro node h1 h2
    simp [Scope.checkVue, h1, h2]
  · intro node s h1 h2 h3
    have h4 : hasVueAttribute node "scope" = true := by
      rw [hasVueAttribute_eq_isSome, h2]; rfl
    simp [Scope.checkVue, h1, h2, h3, h4]

/-- C7, witnessed: `<td scope="col">` is reported as `invalidElement`
with element `td`, and `<th scope="column">` as `invalidValue` with
value `column`. -/
theorem scope_rule_witness :
    Scope.checkJSX ⟨some "td", [.attr "scope" (.lit (.str "col"))]⟩ =
      some (.invalidElement "td") ∧
    Scope.checkJSX ⟨some "th", [.attr "scope" (.lit (.str "column"))]⟩ =
      some (.invalidValue "column") := by
  constructor
  · have h := scope_rule_reports.1
      ⟨some "td", [.attr "scope" (.lit (.str "col"))]⟩ "td" (by decide) (by decide) (by decide)
    rw [h]; decide
  · have h := scope_rule_reports.2.1
      ⟨some "th", [.attr "scope" (.lit (.str "column"))]⟩ "th" (.lit (.str "column")) "column"
      (by decide) (by decide) (by decide) (by decide) (by decide)
    rw [h]; decide

/-- C8: for every `<a>` element whose `href` attribute carries a static
string value that is empty, `#`, or begins case-insensitively with
`javascript:`, the `anchor-is-valid` rule reports `invalidHref` carrying
that value — in both dialects. -/
theorem anchorIsValid_reports_invalid_href :
    (∀ (mapping : ComponentMapping.Mapping) (node : JSXNode) (s : String),
      node.tag = some "a" →
      getJSXAttribute node "href" = some (.lit (.str s)) →
      AnchorIsValid.isInvalidHref s = true →
      AnchorIsValid.checkJSX mapping node = some (.invalidHref s)) ∧
    (∀ (node : VNode) (s : String),
      node.name = "a" →
      getVueAttribute node "href" = some (some s) →
      AnchorIsValid.isInvalidHref s = true →
      AnchorIsValid.checkVue node = some (.invalidHref s)) := by
  constructor
  · intro mapping node s h1 h2 h3
    simp [AnchorIsValid.checkJSX, h1, h2, h3]
  · intro node s h1 h2 h3
    simp [AnchorIsValid.checkVue, h1, h2, h3]

/-- C8, witnessed: `<a href="javascript:void(0)">` yields `invalidHref`
with the href value `javascript:void(0)`. -/
theorem anchorIsValid_witness :
    AnchorIsValid.isInvalidHref "javascript:void(0)" = true ∧
    AnchorIsValid.checkJSX []
      ⟨some "a", [.attr "href" (.lit (.str "javascript:void(0)"))]⟩ =
        some (.invalidHref "javascript:void(0)") := by
  refine ⟨by decide, ?_⟩
  exact anchorIsValid_reports_invalid_href.1 []
    ⟨some "a", [.attr "href" (.lit (.str "javascript:void(0)"))]⟩ "javascript:void(0)"
    (by decide) (by decide) (by decide)

/-- C9: an attribute value that does not resolve to a static string
produces no value-based diagnostic — the `scope` rule reports nothing on
a `th` whose `scope` value is a dynamic expression, and
`prefer-tag-over-role` reports nothing on any node whose `role` value is
a dynamic expression. -/
theorem dynamic_value_yields_no_diagnostic :
    (∀ (node : JSXNode) (t : String),
      node.tag = some t → jsToLower t = "th" →
      getJSXAttribute node "scope" = some .exprDyn →
      Scope.checkJSX node = none) ∧
    (∀ node : JSXNode,
      getJSXAttribute node "role" = some .exprDyn →
      PreferTagOverRole.checkJSX node = none) := by
  constructor
  · intro node t h1 h2 h3
    have h4 : hasJSXAttribute node "scope" = true := by
      rw [hasJSXAttribute_eq_isSome, h3]; rfl
    simp [Scope.checkJSX, h1, h2, h3, h4, jsxStaticLiteralString]
  · intro node h
    cases ht : node.tag with
    | none => simp [PreferTagOverRole.checkJSX, ht]
    | some t =>
      simp [PreferTagOverRole.checkJSX, PreferTagOverRole.getStaticRoleJSX, ht, h,
        jsxStaticLiteralString]

/-- C9, witnessed: a `<th scope={expr}>` and a `<div role={expr}>` with
dynamic values produce no diagnostic from the respective rules. -/
theorem dynamic_value_witness :
    Scope.checkJSX ⟨some "th", [.attr "scope" .exprDyn]⟩ = none ∧
    PreferTagOverRole.checkJSX ⟨some "div", [.attr "role" .exprDyn]⟩ = none := by
  constructor
  · exact dynamic_value_yields_no_diagnostic.1
      ⟨some "th", [.attr "scope" .exprDyn]⟩ "th" (by decide) (by decide) (by decide)
  · exact dynamic_value_yields_no_diagnostic.2
      ⟨some "div", [.attr "role" .exprDyn]⟩ (by decide)

lemma jsxIdTruthy_false_iff (node : JSXNode) :
    FormLabel.jsxIdTruthy node = false ↔
      ∀ v : LitVal, getJSXAttribute node "id" = some (.lit v) → litTruthy v = false := by
  cases ho : getJSXAttribute node "id" with
  | none => simp [FormLabel.jsxIdTruthy, ho]
  | some val =>
    cases val with
    | lit v => simp [FormLabel.jsxIdTruthy, ho]
    | null => simp [FormLabel.jsxIdTruthy, ho]
    | exprLit v => simp [FormLabel.jsxIdTruthy, ho]
    | exprDyn => simp [FormLabel.jsxIdTruthy, ho]

lemma vueIdTruthy_false_iff (node : VNode) :
    FormLabel.vueIdTruthy node = false ↔
      ∀ s : String, getVueAttribute node "id" = some (some s) → s = "" := by
  cases ho : getVueAttribute node "id" with
  | none => simp [FormLabel.vueIdTruthy, ho]
  | some val =>
    cases val with
    | none => simp [FormLabel.vueIdTruthy, ho]
    | some s => simp [FormLabel.vueIdTruthy, ho]

/-- C10: on an `input`, `select` or `textarea` element, the `form-label`
rule reports `missingLabel` exactly when the element has no `aria-label`
attribute, no `aria-labelledby` attribute, and no `id` attribute whose
direct literal value is truthy — so a truthy literal `id` alone
suppresses the diagnostic, while an empty-string or non-literal `id`
does not — in both dialects. -/
theorem formLabel_reports_iff_unlabelled :
    (∀ (node : JSXNode) (t : String),
      node.tag = some t →
      (jsToLower t = "input" ∨ jsToLower t = "select" ∨ jsToLower t = "textarea") →
      (FormLabel.checkJSX node = true ↔
        hasJSXAttribute node "aria-label" = false ∧
        hasJSXAttribute node "aria-labelledby" = false ∧
        ∀ v : LitVal, getJSXAttribute node "id" = some (.lit v) → litTruthy v = false)) ∧
    (∀ node : VNode,
      (jsToLower node.name = "input" ∨ jsToLower node.name = "select" ∨
        jsToLower node.name = "textarea") →
      (FormLabel.checkVue node = true ↔
        hasVueAttribute node "aria-label" = false ∧
        hasVueAttribute node "aria-labelledby" = false ∧
        ∀ s : String, getVueAttribute node "id" = some (some s) → s = "")) := by
  constructor
  · intro node t h1 h2
    rw [← jsxIdTruthy_false_iff]
    rcases h2 with h2 | h2 | h2 <;>
      simp [FormLabel.checkJSX, h1, h2, and_assoc]
  · intro node h2
    rw [← vueIdTruthy_false_iff]
    rcases h2 with h2 | h2 | h2 <;>
      simp [FormLabel.checkVue, h2, and_assoc]

/-- C10, witnessed: `<input id="email">` (no label elsewhere) is not
reported, while a bare `<input>` is. -/
theorem formLabel_witness :
    FormLabel.checkJSX ⟨some "input", [.attr "id" (.lit (.str "email"))]⟩ = false ∧
    FormLabel.checkJSX ⟨some "input", []⟩ = true := by
  constructor
  · cases hc : FormLabel.checkJSX ⟨some "input", [.attr "id" (.lit (.str "email"))]⟩ with
    | false => rfl
    | true =>
      have h := (formLabel_reports_iff_unlabelled.1
        ⟨some "input", [.attr "id" (.lit (.str "email"))]⟩ "input" (by decide)
        (by decide)).mp hc
      exact absurd (h.2.2 (.str "email") (by decide)) (by decide)
  · exact (formLabel_reports_iff_unlabelled.1 ⟨some "input", []⟩ "input" (by decide)
      (by decide)).mpr ⟨by decide, by decide, fun v hv => by simp [getJSXAttribute] at hv⟩
